import Mathlib

/-!
Shallow embedding of the Sachem butterfly-sighting scraper
(src/scraper.rs, src/main.rs, src/record.rs) and proofs about it.

Modelling conventions:
* `u64` identifiers become `Nat` (the code never exercises wraparound on ids);
  where a `u64` bound matters (`str::parse::<u64>`) we check `< 2 ^ 64` explicitly.
* The HTML extractor `parse_html_to_record` is treated as the opaque external
  collaborator `parse : String → Option SightingRecord` (its CSS-selector
  internals are out of scope; every claim quantifies over its outcomes).
* Network nondeterminism is an oracle `responses : Nat → FetchResult` giving the
  outcome of the fetch issued on each attempt number, and randomness is an
  oracle `choices : Nat → Nat` feeding `random_range`.
* `rand::rng().random_range(0..hi)` panics when the range `0..hi` is empty;
  we model a sampling step as `Option Nat`, `none` meaning panic.
* The `Mutex`-guarded missing-sightings ledger is a `LedgerState`; since every
  mutation holds the lock for the whole check-insert-append critical section,
  any concurrent execution is equivalent to some serialization, modelled as a
  `List.foldl` over the adds.
* The durable missing-sightings file is `missing_file : Option (List Nat)`:
  `none` mirrors `missing_sightings_file == None` (no file configured), and
  `some l` holds the lines appended so far.
-/

namespace Sachem

/-- SightingRecord from src/record.rs (all fields, `Default` gives empty strings). -/
structure SightingRecord where
  sighting_id : Option Nat
  url : Option String
  common_name : String
  scientific_name : String
  species_link : String
  observation_date : String
  submitted_by : String
  specimen_type : String
  status : String
  verified_by : String
  verified_date : String
  checklist_regions : String
  deriving DecidableEq, Repr

/-- Default::default() for SightingRecord: everything empty / None. -/
def SightingRecord.default : SightingRecord :=
  ⟨none, none, "", "", "", "", "", "", "", "", "", ""⟩

/-- The scraper's shared ledger state: the in-memory `missing_sightings` Vec and
the contents appended to the missing-sightings file (`none` = no file configured). -/
structure LedgerState where
  missing_sightings : List Nat
  missing_file : Option (List Nat)
  deriving DecidableEq, Repr

/-- Configuration fields of ButterflyMothScraper that the core logic reads:
`base_delay` in milliseconds and `max_retries`. -/
structure Scraper where
  base_delay : Nat
  max_retries : Nat
  deriving DecidableEq, Repr

/-- ButterflyMothScraper::new() defaults: 1000 ms base delay, 3 retries. -/
def Scraper.new : Scraper := ⟨1000, 3⟩

/-- add_missing_sighting (scraper.rs:91-103): under the mutex, if the id is not
already present, push it onto the in-memory Vec and, when a file is configured,
append one line to it (the whole check-insert-append runs inside the lock). -/
def add_missing_sighting (st : LedgerState) (sighting_id : Nat) : LedgerState :=
  if st.missing_sightings.contains sighting_id then st
  else { missing_sightings := st.missing_sightings ++ [sighting_id]
         missing_file := st.missing_file.map (fun l => l ++ [sighting_id]) }

/-- filter_missing_sightings (scraper.rs:121-134): keep the ids not in the
missing set (the HashSet collected from the Vec has the same membership). -/
def filter_missing_sightings (st : LedgerState) (sighting_ids : List Nat) : List Nat :=
  sighting_ids.filter (fun id => ! st.missing_sightings.contains id)

/-- whitespace predicate for Rust str::trim (ASCII subset suffices here). -/
def rust_is_whitespace (c : Char) : Bool :=
  c = ' ' || c = '\t' || c = '\n' || c = '\r'

/-- Rust str::trim: strip leading and trailing whitespace. -/
def rust_trim (s : String) : String :=
  ⟨((s.data.dropWhile rust_is_whitespace).reverse.dropWhile rust_is_whitespace).reverse⟩

/-- Rust str::parse::<u64>: an optional leading plus sign, then one or more
ASCII digits, value at most u64::MAX. -/
def parse_u64 (s : String) : Option Nat :=
  let cs := match s.data with
    | '+' :: rest => rest
    | l => l
  if cs.length > 0 && cs.all Char.isDigit then
    let v := cs.foldl (fun acc c => acc * 10 + (c.toNat - 48)) 0
    if v < 2 ^ 64 then some v else none
  else none

/-- load_missing_sightings (scraper.rs:61-78): when the file opens (`contents =
some lines`) push every line that trims and parses as u64 onto the in-memory
list, silently skipping the rest; when File::open fails (`contents = none`,
e.g. the file is missing) do nothing. -/
def load_missing_sightings (contents : Option (List String)) (missing : List Nat) : List Nat :=
  match contents with
  | none => missing
  | some lines =>
    lines.foldl (fun acc line =>
      match parse_u64 (rust_trim line) with
      | some sighting_id => acc ++ [sighting_id]
      | none => acc) missing

/-- get_failed_ids (main.rs:15-26): the originally requested ids whose value is
not the `sighting_id` of any scraped record, in original order. -/
def get_failed_ids (original_ids : List Nat) (scraped_records : List SightingRecord) : List Nat :=
  let scraped_ids := scraped_records.filterMap (fun r => r.sighting_id)
  original_ids.filter (fun id => ! scraped_ids.contains id)

/-- Outcome of one network fetch attempt: `err` is a transport-level failure
(`client.get(url).send()` returned Err); `ok status text` is a response with
the given HTTP status, where `text` is what `response.text()` would yield
(`none` = body-read failure). -/
inductive FetchResult where
  | err : FetchResult
  | ok (status : Nat) (text : Option String) : FetchResult
  deriving DecidableEq, Repr

/-- Transient outcomes per the retry classification (scraper.rs:255, 295, 309):
transport error, HTTP 429, or any other status outside 200..=299. -/
def FetchResult.Transient : FetchResult → Prop
  | .err => True
  | .ok status _ => status = 429 ∨ ¬ (200 ≤ status ∧ status ≤ 299)

/-- rand::rng().random_range(0..hi): empty range panics (`none`); otherwise the
oracle value reduced into range. -/
def random_range (hi : Nat) (choice : Nat) : Option Nat :=
  if hi = 0 then none else some (choice % hi)

/-- Pre-attempt-0 delay (scraper.rs:246-249): base_delay + random_range(0..base_delay/2). -/
def initial_delay (s : Scraper) (choice : Nat) : Option Nat :=
  (random_range (s.base_delay / 2) choice).map (fun j => s.base_delay + j)

/-- Backoff delay for attempt ≥ 1 (scraper.rs:234-237):
2^attempt * base_delay + random_range(0..base_delay). -/
def backoff_delay (s : Scraper) (attempt : Nat) (choice : Nat) : Option Nat :=
  (random_range s.base_delay choice).map (fun j => 2 ^ attempt * s.base_delay + j)

/-- The delay computed before the fetch of a given attempt (scraper.rs:233-251). -/
def pre_fetch_delay (s : Scraper) (attempt : Nat) (choice : Nat) : Option Nat :=
  if attempt > 0 then backoff_delay s attempt choice else initial_delay s choice

/-- sighting URL template (scraper.rs:226-229). -/
def sighting_url (sighting_id : Nat) : String :=
  "https://www.butterfliesandmoths.org/sighting_details/" ++ toString sighting_id

/-- Stamp id and url onto a freshly parsed record (scraper.rs:271-272). -/
def stamp (r : SightingRecord) (sighting_id : Nat) : SightingRecord :=
  { r with sighting_id := some sighting_id, url := some (sighting_url sighting_id) }

/-- Result of running scrape_sighting_page: either the task panicked (a delay
sampled from an empty range) after `fetches` completed fetch attempts, or it
returned `result`, leaving the ledger at `st`, after `fetches` fetch attempts. -/
inductive ScrapeResult where
  | panicked (fetches : Nat) (st : LedgerState) : ScrapeResult
  | done (result : Option SightingRecord) (st : LedgerState) (fetches : Nat) : ScrapeResult
  deriving DecidableEq, Repr

/-- Account for one more completed fetch attempt in front of a later outcome. -/
def ScrapeResult.bump : ScrapeResult → ScrapeResult
  | .panicked n st => .panicked (n + 1) st
  | .done r st n => .done r st (n + 1)

/-- Loop body of scrape_sighting_page (scraper.rs:231-335), recursing on the
number of loop iterations still available (`fuel`); with `fuel = max_retries +
1 - attempt` the `fuel = 0` case is the dead fall-through after the `for` loop
(scraper.rs:328-334). Each iteration: compute the pre-fetch delay (panic if its
random range is empty), fetch, then classify: 429 and any status outside
200..=299 retry while `attempt < max_retries` and otherwise record the id as
missing; a success status is terminal either way — body-read failure or an
unparseable body records the id as missing, a parsed record is stamped and
returned. -/
def scrapeAux (s : Scraper) (parse : String → Option SightingRecord)
    (responses : Nat → FetchResult) (choices : Nat → Nat) (sighting_id : Nat) :
    Nat → Nat → LedgerState → ScrapeResult
  | 0, _, st => .done none (add_missing_sighting st sighting_id) 0
  | fuel + 1, attempt, st =>
    match pre_fetch_delay s attempt (choices attempt) with
    | none => .panicked 0 st
    | some _ =>
      match responses attempt with
      | .err =>
        if attempt < s.max_retries then
          (scrapeAux s parse responses choices sighting_id fuel (attempt + 1) st).bump
        else .done none (add_missing_sighting st sighting_id) 1
      | .ok status text =>
        if status = 429 then
          if attempt < s.max_retries then
            (scrapeAux s parse responses choices sighting_id fuel (attempt + 1) st).bump
          else .done none (add_missing_sighting st sighting_id) 1
        else if 200 ≤ status ∧ status ≤ 299 then
          match text with
          | none => .done none (add_missing_sighting st sighting_id) 1
          | some html =>
            match parse html with
            | some record => .done (some (stamp record sighting_id)) st 1
            | none => .done none (add_missing_sighting st sighting_id) 1
        else
          if attempt < s.max_retries then
            (scrapeAux s parse responses choices sighting_id fuel (attempt + 1) st).bump
          else .done none (add_missing_sighting st sighting_id) 1

/-- scrape_sighting_page (scraper.rs:225-335): run the attempt loop from
attempt 0 with its full budget of max_retries + 1 iterations. -/
def scrape_sighting_page (s : Scraper) (parse : String → Option SightingRecord)
    (responses : Nat → FetchResult) (choices : Nat → Nat)
    (sighting_id : Nat) (st : LedgerState) : ScrapeResult :=
  scrapeAux s parse responses choices sighting_id (s.max_retries + 1) 0 st

/-- Record returned by a finished task, if any. -/
def ScrapeResult.getRecord : ScrapeResult → Option SightingRecord
  | .done r _ _ => r
  | .panicked _ _ => none

/-- Whether the task finished without panicking. -/
def ScrapeResult.isDone : ScrapeResult → Bool
  | .done _ _ _ => true
  | .panicked _ _ => false

/-- scrape_multiple_sightings (scraper.rs:338-388): filter the ids through the
ledger, run one scrape task per surviving id (`env id` / `choices2 id` are that
id's network and randomness oracles), and gather the results with
futures::join_all, which collects each task's output at that task's input
position; the non-None results are then kept in that positional order. A panic
in any task propagates out of join_all, modelled as `none`. The returned
records do not depend on ledger interleaving (a task's returned record never
reads the shared state), so each task is evaluated against the initial ledger.
`max_concurrent` sizes the semaphore bounding in-flight tasks; it does not
affect which results are produced or their order. -/
def scrape_multiple_sightings (s : Scraper) (parse : String → Option SightingRecord)
    (env : Nat → Nat → FetchResult) (choices2 : Nat → Nat → Nat)
    (st : LedgerState) (sighting_ids : List Nat) (max_concurrent : Nat) :
    Option (List SightingRecord) :=
  let filtered := filter_missing_sightings st sighting_ids
  let results := filtered.map
    (fun id => scrape_sighting_page s parse (env id) (choices2 id) id st)
  if results.all ScrapeResult.isDone then
    some (results.filterMap ScrapeResult.getRecord)
  else none

/-- Modelled from the spec words "returns the surviving records in
task-completion order": given each task's output (in task order) and the order
in which the tasks completed, the surviving records listed by completion order. -/
def completion_order_records (tasks : List (Option SightingRecord))
    (completion : List Nat) : List SightingRecord :=
  completion.filterMap (fun i => (tasks.get? i).join)

/-! ### Ledger lemmas -/

lemma add_missing_of_mem (st : LedgerState) (i : Nat)
    (h : st.missing_sightings.contains i = true) : add_missing_sighting st i = st := by
  unfold add_missing_sighting
  rw [if_pos h]

lemma add_missing_of_not_mem (st : LedgerState) (i : Nat)
    (h : i ∉ st.missing_sightings) :
    add_missing_sighting st i =
      ⟨st.missing_sightings ++ [i], st.missing_file.map (fun l => l ++ [i])⟩ := by
  have hc : ¬ st.missing_sightings.contains i = true := by simpa using h
  unfold add_missing_sighting
  rw [if_neg hc]

lemma add_missing_mono (st : LedgerState) (i x : Nat)
    (hx : x ∈ st.missing_sightings) : x ∈ (add_missing_sighting st i).missing_sightings := by
  by_cases hc : st.missing_sightings.contains i
  · simpa [add_missing_of_mem st i hc] using hx
  · rw [add_missing_of_not_mem st i (by simpa using hc)]
    exact List.mem_append_left _ hx

lemma add_missing_nodup (st : LedgerState) (i : Nat)
    (h : st.missing_sightings.Nodup) : (add_missing_sighting st i).missing_sightings.Nodup := by
  by_cases hc : st.missing_sightings.contains i
  · simpa [add_missing_of_mem st i hc] using h
  · have hni : i ∉ st.missing_sightings := by simpa using hc
    rw [add_missing_of_not_mem st i hni]
    simpa [List.nodup_append] using ⟨h, hni⟩

lemma foldl_add_invariant (ids : List Nat) :
    ∀ st : LedgerState, st.missing_sightings.Nodup →
      (ids.foldl add_missing_sighting st).missing_sightings.Nodup ∧
      (∀ x ∈ st.missing_sightings, x ∈ (ids.foldl add_missing_sighting st).missing_sightings) ∧
      ∀ l, st.missing_file = some l →
        ∃ d, (ids.foldl add_missing_sighting st).missing_file = some (l ++ d) ∧
          d.Nodup ∧ ∀ x ∈ d, x ∉ st.missing_sightings := by
  induction ids with
  | nil =>
    intro st h
    exact ⟨h, fun x hx => hx, fun l hl => ⟨[], by simp [hl], List.nodup_nil, by simp⟩⟩
  | cons i rest ih =>
    intro st h
    rw [List.foldl_cons]
    by_cases hc : st.missing_sightings.contains i
    · rw [add_missing_of_mem st i hc]
      exact ih st h
    · have hni : i ∉ st.missing_sightings := by simpa using hc
      obtain ⟨h1, h2, h3⟩ := ih (add_missing_sighting st i) (add_missing_nodup st i h)
      refine ⟨h1, ?_, ?_⟩
      · intro x hx
        exact h2 x (add_missing_mono st i x hx)
      · intro l hl
        have hfile : (add_missing_sighting st i).missing_file = some (l ++ [i]) := by
          rw [add_missing_of_not_mem st i hni]
          simp [hl]
        obtain ⟨d, hd, hdnd, hdm⟩ := h3 (l ++ [i]) hfile
        refine ⟨i :: d, ?_, ?_, ?_⟩
        · rw [hd, List.append_assoc]
          rfl
        · refine List.nodup_cons.mpr ⟨?_, hdnd⟩
          intro hid
          exact hdm i hid (by rw [add_missing_of_not_mem st i hni]; simp)
        · intro x hx
          rw [List.mem_cons] at hx
          rcases hx with rfl | hx'
          · exact hni
          · intro hxin
            exact hdm x hx' (add_missing_mono st i x hxin)

/-- C2: starting from a duplicate-free ledger, any serialized sequence of
add_missing_sighting calls (the mutex makes every concurrent interleaving such
a sequence, each call holding the lock across its whole check-insert-append
critical section) leaves the in-memory list duplicate-free; when a file is
configured, only new lines are appended, each identifier at most once and never
one already present; and re-adding a present identifier is a no-op. -/
theorem C2_no_duplicate_ledger (st : LedgerState) (ids : List Nat)
    (hnd : st.missing_sightings.Nodup) :
    (ids.foldl add_missing_sighting st).missing_sightings.Nodup ∧
    (∀ l, st.missing_file = some l →
      ∃ d, (ids.foldl add_missing_sighting st).missing_file = some (l ++ d) ∧
        d.Nodup ∧ ∀ x ∈ d, x ∉ st.missing_sightings) ∧
    ∀ i ∈ st.missing_sightings, add_missing_sighting st i = st := by
  obtain ⟨h1, _, h3⟩ := foldl_add_invariant ids st hnd
  exact ⟨h1, h3, fun i hi => add_missing_of_mem st i (by simpa using hi)⟩

/-- Witness for C2 at a concrete state and add sequence. -/
theorem C2_witness :
    ([5, 5, 3].foldl add_missing_sighting ⟨[], some []⟩).missing_sightings.Nodup ∧
    add_missing_sighting ⟨[5], some [5]⟩ 5 = ⟨[5], some [5]⟩ :=
  ⟨(C2_no_duplicate_ledger ⟨[], some []⟩ [5, 5, 3] (by simp)).1,
   (C2_no_duplicate_ledger ⟨[5], some [5]⟩ [] (by simp)).2.2 5 (by simp)⟩

/-! ### Load lemmas -/

lemma load_some_eq_append (lines : List String) :
    ∀ missing, load_missing_sightings (some lines) missing =
      missing ++ lines.filterMap (fun l => parse_u64 (rust_trim l)) := by
  induction lines with
  | nil => intro missing; simp [load_missing_sightings]
  | cons l rest ih =>
    intro missing
    simp only [load_missing_sightings] at ih ⊢
    rw [List.foldl_cons]
    cases h : parse_u64 (rust_trim l) with
    | none => simp [h, ih, List.filterMap_cons]
    | some v => simp [h, ih, List.filterMap_cons]

/-- C4 counterexample: a malformed line does not fail the load — "abc" parses
to none, is silently skipped, and the load returns normally with the
well-formed line's value in the ledger (no error is raised, the run proceeds). -/
theorem C4_counterexample :
    parse_u64 "abc" = none ∧ load_missing_sightings (some ["abc", "42"]) [] = [42] := by
  exact ⟨rfl, rfl⟩

/-- C4 amended: a missing file is not an error and leaves the ledger unchanged
(empty at startup), and a malformed line is silently skipped by the load rather
than failing it. -/
theorem C4_amended_load_skips_malformed (missing : List Nat) (line : String)
    (rest : List String) (hbad : parse_u64 (rust_trim line) = none) :
    load_missing_sightings none missing = missing ∧
    load_missing_sightings (some (line :: rest)) missing =
      load_missing_sightings (some rest) missing := by
  refine ⟨rfl, ?_⟩
  simp only [load_missing_sightings, List.foldl_cons, hbad]

/-- Witness for C4's amended theorem. -/
theorem C4_witness :
    load_missing_sightings none [3] = [3] ∧
    load_missing_sightings (some ["xy", "8"]) [3] =
      load_missing_sightings (some ["8"]) [3] :=
  C4_amended_load_skips_malformed [3] "xy" ["8"] rfl

/-- C10: load_missing_sightings pushes every parseable line without any
membership check, so each occurrence in the file becomes an occurrence in
memory (counts add up), and a file with a repeated identifier yields a
duplicated in-memory ledger. -/
theorem C10_load_appends_without_membership_check (missing : List Nat)
    (lines : List String) (v : Nat) :
    (load_missing_sightings (some lines) missing).count v =
      missing.count v + (lines.filterMap (fun l => parse_u64 (rust_trim l))).count v ∧
    load_missing_sightings (some ["7", "7"]) [] = [7, 7] := by
  refine ⟨?_, rfl⟩
  rw [load_some_eq_append, List.count_append]

/-- C5 counterexample: with no missing-sightings file configured (the scraper's
default), an add changes the in-memory set but persists nothing durable, so
the claim's "for every configuration" fails. -/
theorem C5_counterexample :
    (add_missing_sighting ⟨[], none⟩ 7).missing_sightings = [7] ∧
    (add_missing_sighting ⟨[], none⟩ 7).missing_file = none := by
  exact ⟨rfl, rfl⟩

/-- C5 amended: when a missing-sightings file is configured, an add of a new
identifier appends it to the in-memory list and appends exactly one line to
the file at the time of the add. -/
theorem C5_amended_append_at_add_time (st : LedgerState) (sighting_id : Nat)
    (l : List Nat) (hfile : st.missing_file = some l)
    (hnew : sighting_id ∉ st.missing_sightings) :
    (add_missing_sighting st sighting_id).missing_sightings =
      st.missing_sightings ++ [sighting_id] ∧
    (add_missing_sighting st sighting_id).missing_file = some (l ++ [sighting_id]) := by
  rw [add_missing_of_not_mem st sighting_id hnew]
  exact ⟨rfl, by simp [hfile]⟩

/-- Witness for C5's amended theorem. -/
theorem C5_witness :
    (add_missing_sighting ⟨[], some []⟩ 7).missing_sightings = [] ++ [7] ∧
    (add_missing_sighting ⟨[], some []⟩ 7).missing_file = some ([] ++ [7]) :=
  C5_amended_append_at_add_time ⟨[], some []⟩ 7 [] rfl (by simp)

/-! ### get_failed_ids -/

lemma not_contains_filterMap (records : List SightingRecord) (id : Nat) :
    (! (records.filterMap fun r => r.sighting_id).contains id) =
      decide (∀ r ∈ records, r.sighting_id ≠ some id) := by
  induction records with
  | nil => rfl
  | cons r rest ih =>
    cases hr : r.sighting_id with
    | none => simp [List.filterMap_cons, hr, ← ih]
    | some v =>
      by_cases hv : v = id
      · simp [List.filterMap_cons, hr, hv, ← ih]
      · have hne : (id == v) = false := by
          simp only [beq_eq_false_iff_ne, ne_eq]
          exact fun h => hv h.symm
        simp [List.filterMap_cons, hne, hr, ← ih]
        rw [show decide (id = v) = decide (v = id) from decide_eq_decide.mpr eq_comm]

/-- C8: get_failed_ids returns exactly the original identifiers that are not
the sighting_id of any scraped record, as a filter of the original list (hence
in the original order). -/
theorem C8_get_failed_ids_spec (original_ids : List Nat)
    (records : List SightingRecord) :
    get_failed_ids original_ids records =
      original_ids.filter (fun id => decide (∀ r ∈ records, r.sighting_id ≠ some id)) := by
  unfold get_failed_ids
  exact List.filter_congr (fun id _ => not_contains_filterMap records id)

/-! ### Fetch-worker lemmas -/

lemma pre_fetch_delay_isSome (s : Scraper) (h2 : 2 ≤ s.base_delay)
    (attempt choice : Nat) : ∃ d, pre_fetch_delay s attempt choice = some d := by
  have h0 : ¬ s.base_delay = 0 := by omega
  have h1 : ¬ s.base_delay / 2 = 0 := by
    have := (Nat.one_le_div_iff (show 0 < 2 by norm_num)).mpr h2
    omega
  unfold pre_fetch_delay backoff_delay initial_delay random_range
  by_cases ha : attempt > 0
  · rw [if_pos ha, if_neg h0]
    exact ⟨_, rfl⟩
  · rw [if_neg ha, if_neg h1]
    exact ⟨_, rfl⟩

lemma scrapeAux_transient (s : Scraper) (h2 : 2 ≤ s.base_delay)
    (parse : String → Option SightingRecord) (responses : Nat → FetchResult)
    (choices : Nat → Nat) (sighting_id : Nat)
    (htr : ∀ n, (responses n).Transient) :
    ∀ fuel attempt st, attempt + fuel = s.max_retries + 1 →
      scrapeAux s parse responses choices sighting_id fuel attempt st =
        ScrapeResult.done none (add_missing_sighting st sighting_id) fuel := by
  intro fuel
  induction fuel with
  | zero => intro attempt st _; rfl
  | succ fuel ih =>
    intro attempt st hsum
    obtain ⟨d, hd⟩ := pre_fetch_delay_isSome s h2 attempt (choices attempt)
    have htra := htr attempt
    simp only [scrapeAux, hd]
    cases hr : responses attempt with
    | err =>
      by_cases hlt : attempt < s.max_retries
      · have hnext : attempt + 1 + fuel = s.max_retries + 1 := by omega
        simp [hlt, ih (attempt + 1) st hnext, ScrapeResult.bump]
      · have hf : fuel = 0 := by omega
        simp [hlt, hf]
    | ok status text =>
      rw [hr] at htra
      simp only [FetchResult.Transient] at htra
      by_cases h429 : status = 429
      · subst h429
        by_cases hlt : attempt < s.max_retries
        · have hnext : attempt + 1 + fuel = s.max_retries + 1 := by omega
          simp [hlt, ih (attempt + 1) st hnext, ScrapeResult.bump]
        · have hf : fuel = 0 := by omega
          simp [hlt, hf]
      · have hrange : ¬ (200 ≤ status ∧ status ≤ 299) := htra.resolve_left h429
        by_cases hlt : attempt < s.max_retries
        · have hnext : attempt + 1 + fuel = s.max_retries + 1 := by omega
          simp [h429, hrange, hlt, ih (attempt + 1) st hnext, ScrapeResult.bump]
        · have hf : fuel = 0 := by omega
          simp [h429, hrange, hlt, hf]

lemma scrapeAux_done (s : Scraper) (h2 : 2 ≤ s.base_delay)
    (parse : String → Option SightingRecord) (responses : Nat → FetchResult)
    (choices : Nat → Nat) (sighting_id : Nat) :
    ∀ fuel attempt st, ∃ r st2 n,
      scrapeAux s parse responses choices sighting_id fuel attempt st =
        ScrapeResult.done r st2 n ∧
      ∀ rec, r = some rec → rec.sighting_id = some sighting_id := by
  intro fuel
  induction fuel with
  | zero =>
    intro attempt st
    exact ⟨none, _, 0, rfl, fun rec h => by cases h⟩
  | succ fuel ih =>
    intro attempt st
    obtain ⟨d, hd⟩ := pre_fetch_delay_isSome s h2 attempt (choices attempt)
    simp only [scrapeAux, hd]
    cases hr : responses attempt with
    | err =>
      by_cases hlt : attempt < s.max_retries
      · obtain ⟨r, st2, n, heq, hrec⟩ := ih (attempt + 1) st
        exact ⟨r, st2, n + 1, by simp [hlt, heq, ScrapeResult.bump], hrec⟩
      · exact ⟨none, add_missing_sighting st sighting_id, 1,
          by simp [hlt], fun rec h => by cases h⟩
    | ok status text =>
      by_cases h429 : status = 429
      · subst h429
        by_cases hlt : attempt < s.max_retries
        · obtain ⟨r, st2, n, heq, hrec⟩ := ih (attempt + 1) st
          exact ⟨r, st2, n + 1, by simp [hlt, heq, ScrapeResult.bump], hrec⟩
        · exact ⟨none, add_missing_sighting st sighting_id, 1,
            by simp [hlt], fun rec h => by cases h⟩
      · by_cases hrange : 200 ≤ status ∧ status ≤ 299
        · cases text with
          | none =>
            exact ⟨none, add_missing_sighting st sighting_id, 1,
              by simp [h429, hrange], fun rec h => by cases h⟩
          | some html =>
            cases hp : parse html with
            | some record =>
              refine ⟨some (stamp record sighting_id), st, 1, ?_, ?_⟩
              · simp [h429, hrange, hp]
              · intro rec h
                cases h
                rfl
            | none =>
              exact ⟨none, add_missing_sighting st sighting_id, 1,
                by simp [h429, hrange, hp], fun rec h => by cases h⟩
        · by_cases hlt : attempt < s.max_retries
          · obtain ⟨r, st2, n, heq, hrec⟩ := ih (attempt + 1) st
            exact ⟨r, st2, n + 1,
              by simp [h429, hrange, hlt, heq, ScrapeResult.bump], hrec⟩
          · exact ⟨none, add_missing_sighting st sighting_id, 1,
              by simp [h429, hrange, hlt], fun rec h => by cases h⟩

/-- C1: when every attempt's fetch has a transient outcome (transport error,
429, or other non-2xx status) and the delay computation is total (base_delay
at least 2 ms, see C9), scrape_sighting_page performs exactly max_retries + 1
fetch attempts, adds the identifier to the missing ledger, and returns no
record. -/
theorem C1_transient_exhausts_retries (s : Scraper)
    (parse : String → Option SightingRecord) (responses : Nat → FetchResult)
    (choices : Nat → Nat) (sighting_id : Nat) (st : LedgerState)
    (h2 : 2 ≤ s.base_delay) (htr : ∀ n, (responses n).Transient) :
    scrape_sighting_page s parse responses choices sighting_id st =
      ScrapeResult.done none (add_missing_sighting st sighting_id)
        (s.max_retries + 1) :=
  scrapeAux_transient s h2 parse responses choices sighting_id htr
    (s.max_retries + 1) 0 st (by omega)

/-- Witness for C1: max_retries = 1, every fetch a transport error: two fetch
attempts, then the id is recorded missing and nothing is returned. -/
theorem C1_witness :
    scrape_sighting_page ⟨2, 1⟩ (fun _ => none) (fun _ => FetchResult.err)
        (fun _ => 0) 9 ⟨[], some []⟩ =
      ScrapeResult.done none (add_missing_sighting ⟨[], some []⟩ 9) 2 :=
  C1_transient_exhausts_retries ⟨2, 1⟩ _ _ _ 9 ⟨[], some []⟩ (by norm_num)
    (fun _ => trivial)

/-- C6: a success-range status on the first attempt is terminal either way —
if the body reads but the extractor returns nothing, or if the body read
fails, the identifier is added to the missing ledger and None is returned
after exactly one fetch attempt, consuming no retries. -/
theorem C6_success_status_terminal (s : Scraper)
    (parse : String → Option SightingRecord) (responses : Nat → FetchResult)
    (choices : Nat → Nat) (sighting_id : Nat) (st : LedgerState) (status : Nat)
    (h2 : 2 ≤ s.base_delay) (hlo : 200 ≤ status) (hhi : status ≤ 299) :
    (∀ html, responses 0 = FetchResult.ok status (some html) → parse html = none →
      scrape_sighting_page s parse responses choices sighting_id st =
        ScrapeResult.done none (add_missing_sighting st sighting_id) 1) ∧
    (responses 0 = FetchResult.ok status none →
      scrape_sighting_page s parse responses choices sighting_id st =
        ScrapeResult.done none (add_missing_sighting st sighting_id) 1) := by
  obtain ⟨d, hd⟩ := pre_fetch_delay_isSome s h2 0 (choices 0)
  have h429 : ¬ status = 429 := by omega
  constructor
  · intro html hresp hparse
    simp only [scrape_sighting_page, scrapeAux, hd, hresp]
    rw [if_neg h429, if_pos ⟨hlo, hhi⟩]
    simp [hparse]
  · intro hresp
    simp only [scrape_sighting_page, scrapeAux, hd, hresp]
    rw [if_neg h429, if_pos ⟨hlo, hhi⟩]

/-- Witness for C6: one scrape with an unparseable 200 body and one with a
failed body read after a 204, each a single fetch attempt recording the id. -/
theorem C6_witness :
    scrape_sighting_page ⟨2, 3⟩ (fun _ => none)
        (fun _ => FetchResult.ok 200 (some "x")) (fun _ => 0) 4 ⟨[], none⟩ =
      ScrapeResult.done none (add_missing_sighting ⟨[], none⟩ 4) 1 ∧
    scrape_sighting_page ⟨2, 3⟩ (fun _ => none)
        (fun _ => FetchResult.ok 204 none) (fun _ => 0) 4 ⟨[], none⟩ =
      ScrapeResult.done none (add_missing_sighting ⟨[], none⟩ 4) 1 :=
  ⟨(C6_success_status_terminal ⟨2, 3⟩ _ _ _ 4 ⟨[], none⟩ 200 (by norm_num)
      (by norm_num) (by norm_num)).1 "x" rfl rfl,
   (C6_success_status_terminal ⟨2, 3⟩ _ _ _ 4 ⟨[], none⟩ 204 (by norm_num)
      (by norm_num) (by norm_num)).2 rfl⟩

/-- C9: the pre-fetch jitter computation is total exactly when base_delay is
at least 2 ms. With base_delay 0 or 1 the attempt-0 random range
0..base_delay/2 is empty, so the task panics before any fetch is issued (zero
fetch attempts); with base_delay at least 2 no delay computation panics and
the scrape always finishes. -/
theorem C9_delay_totality (s : Scraper) :
    (s.base_delay ≤ 1 →
      ∀ (parse : String → Option SightingRecord) responses choices sighting_id st,
        scrape_sighting_page s parse responses choices sighting_id st =
          ScrapeResult.panicked 0 st) ∧
    (2 ≤ s.base_delay →
      ∀ (parse : String → Option SightingRecord) responses choices sighting_id st,
        ∃ r st2 n, scrape_sighting_page s parse responses choices sighting_id st =
          ScrapeResult.done r st2 n) := by
  constructor
  · intro h1 parse responses choices sighting_id st
    have hhalf : s.base_delay / 2 = 0 := Nat.div_eq_of_lt (by omega)
    simp [scrape_sighting_page, scrapeAux, pre_fetch_delay, initial_delay,
      random_range, hhalf]
  · intro h2 parse responses choices sighting_id st
    obtain ⟨r, st2, n, heq, _⟩ :=
      scrapeAux_done s h2 parse responses choices sighting_id
        (s.max_retries + 1) 0 st
    exact ⟨r, st2, n, heq⟩

/-- Witness for C9: base_delay 1 panics before any fetch; base_delay 2 finishes. -/
theorem C9_witness :
    scrape_sighting_page ⟨1, 0⟩ (fun _ => none) (fun _ => FetchResult.err)
        (fun _ => 0) 5 ⟨[], none⟩ = ScrapeResult.panicked 0 ⟨[], none⟩ ∧
    ∃ r st2 n,
      scrape_sighting_page ⟨2, 0⟩ (fun _ => none) (fun _ => FetchResult.err)
        (fun _ => 0) 5 ⟨[], none⟩ = ScrapeResult.done r st2 n :=
  ⟨(C9_delay_totality ⟨1, 0⟩).1 (by norm_num) _ _ _ _ _,
   (C9_delay_totality ⟨2, 0⟩).2 (by norm_num) _ _ _ _ _⟩

/-! ### Concurrency coordinator -/

lemma map_getRecord_sublist (f : Nat → ScrapeResult)
    (hstamp : ∀ id rec, (f id).getRecord = some rec → rec.sighting_id = some id) :
    ∀ ids : List Nat,
      (((ids.map f).filterMap ScrapeResult.getRecord).map
        fun r => r.sighting_id).Sublist (ids.map some) := by
  intro ids
  induction ids with
  | nil => simp
  | cons i rest ih =>
    simp only [List.map_cons, List.filterMap_cons]
    cases hg : (f i).getRecord with
    | none => exact ih.cons (some i)
    | some rec =>
      rw [List.map_cons, hstamp i rec hg]
      exact ih.cons₂ (some i)

/-- C3 amended: scrape_multiple_sightings filters out the None results, but
returns the surviving records in the order of the dispatched (filtered input)
identifiers, not in task-completion order: join_all collects every task's
output at that task's input position, so the sequence of returned sighting_ids
is a subsequence of the input identifier sequence. -/
theorem C3_results_in_input_order (s : Scraper)
    (parse : String → Option SightingRecord) (env : Nat → Nat → FetchResult)
    (choices2 : Nat → Nat → Nat) (st : LedgerState) (sighting_ids : List Nat)
    (max_concurrent : Nat) (h2 : 2 ≤ s.base_delay) :
    ∃ recs,
      scrape_multiple_sightings s parse env choices2 st sighting_ids max_concurrent =
        some recs ∧
      (recs.map fun r => r.sighting_id).Sublist (sighting_ids.map some) := by
  have hdone : ∀ id : Nat, ∃ r st2 n,
      scrape_sighting_page s parse (env id) (choices2 id) id st =
        ScrapeResult.done r st2 n ∧
      ∀ rec, r = some rec → rec.sighting_id = some id :=
    fun id => scrapeAux_done s h2 parse (env id) (choices2 id) id
      (s.max_retries + 1) 0 st
  have hstamp : ∀ id rec,
      (scrape_sighting_page s parse (env id) (choices2 id) id st).getRecord =
        some rec → rec.sighting_id = some id := by
    intro id rec hg
    obtain ⟨r, st2, n, heq, hrec⟩ := hdone id
    rw [heq] at hg
    exact hrec rec hg
  have hall : ((filter_missing_sightings st sighting_ids).map
      (fun id => scrape_sighting_page s parse (env id) (choices2 id) id st)).all
        ScrapeResult.isDone = true := by
    rw [List.all_eq_true]
    intro x hx
    obtain ⟨id, _, rfl⟩ := List.mem_map.mp hx
    obtain ⟨r, st2, n, heq, _⟩ := hdone id
    rw [heq]
    rfl
  refine ⟨((filter_missing_sightings st sighting_ids).map
      (fun id => scrape_sighting_page s parse (env id) (choices2 id) id st)).filterMap
      ScrapeResult.getRecord, ?_, ?_⟩
  · simp only [scrape_multiple_sightings]
    rw [if_pos hall]
  · have hsub : (filter_missing_sightings st sighting_ids).Sublist sighting_ids :=
      List.filter_sublist _
    exact (map_getRecord_sublist _ hstamp _).trans (hsub.map some)

/-- Witness for C3's amended theorem at a concrete, fully successful run. -/
theorem C3_witness :
    ∃ recs,
      scrape_multiple_sightings ⟨2, 0⟩ (fun _ => some SightingRecord.default)
        (fun _ _ => FetchResult.ok 200 (some "h")) (fun _ _ => 0)
        ⟨[], none⟩ [1, 2] 4 = some recs ∧
      (recs.map fun r => r.sighting_id).Sublist ([1, 2].map some) :=
  C3_results_in_input_order ⟨2, 0⟩ _ _ _ ⟨[], none⟩ [1, 2] 4 (by norm_num)

/-- C3 counterexample: two identifiers both succeed; the completion schedule
has the second task finish first, so the spec's "task-completion order" output
is the reversed pair, but the code returns the records in input order — the
two orders differ at this concrete input, so the claim as stated is false. -/
theorem C3_counterexample :
    scrape_multiple_sightings ⟨2, 0⟩ (fun _ => some SightingRecord.default)
      (fun _ _ => FetchResult.ok 200 (some "h")) (fun _ _ => 0)
      ⟨[], none⟩ [1, 2] 4 =
      some [stamp SightingRecord.default 1, stamp SightingRecord.default 2] ∧
    completion_order_records
      [some (stamp SightingRecord.default 1), some (stamp SightingRecord.default 2)]
      [1, 0] =
      [stamp SightingRecord.default 2, stamp SightingRecord.default 1] ∧
    [stamp SightingRecord.default 1, stamp SightingRecord.default 2] ≠
      [stamp SightingRecord.default 2, stamp SightingRecord.default 1] := by
  refine ⟨rfl, rfl, ?_⟩
  decide

/-- C7: an identifier already in the missing ledger is excluded from dispatch —
it never survives filter_missing_sightings, and scrape_multiple_sightings
behaves identically on the input with all ledger identifiers pre-removed, so
no task (hence no fetch) is created for it. -/
theorem C7_ledger_excluded_from_dispatch (st : LedgerState)
    (sighting_ids : List Nat) (sighting_id : Nat)
    (h : sighting_id ∈ st.missing_sightings) :
    sighting_id ∉ filter_missing_sightings st sighting_ids ∧
    ∀ (s : Scraper) (parse : String → Option SightingRecord) env choices2 max_concurrent,
      scrape_multiple_sightings s parse env choices2 st sighting_ids max_concurrent =
        scrape_multiple_sightings s parse env choices2 st
          (sighting_ids.filter fun i => ! st.missing_sightings.contains i)
          max_concurrent := by
  constructor
  · intro hmem
    rw [filter_missing_sightings, List.mem_filter] at hmem
    simp only [Bool.not_eq_true'] at hmem
    exact absurd h (by simpa using hmem.2)
  · intro s parse env choices2 max_concurrent
    have hff : filter_missing_sightings st
        (sighting_ids.filter fun i => ! st.missing_sightings.contains i) =
        filter_missing_sightings st sighting_ids := by
      unfold filter_missing_sightings
      rw [List.filter_filter]
      simp
    simp only [scrape_multiple_sightings, hff]

/-- Witness for C7 at a concrete ledger and id list. -/
theorem C7_witness :
    (2 : Nat) ∉ filter_missing_sightings ⟨[2], none⟩ [1, 2, 3] :=
  (C7_ledger_excluded_from_dispatch ⟨[2], none⟩ [1, 2, 3] 2 (by simp)).1

end Sachem
